import Mathlib

/-!
Verification development for the premiscale autoscaling controller.

The definitions below are a shallow embedding of the three source files of the
repository:

  * src/premiscale/config/v1alpha1.py  (configuration schema and loading)
  * src/premiscale/controller/daemon.py (daemon orchestration)
  * src/premiscale/hypervisor/_base.py  (libvirt connection abstraction)

Python integers are modelled as Int, Python `X | None` as Option, fallible
construction (raised exceptions, sys.exit) as Except, the process environment
as an explicit association list threaded through the functions that read it,
and the effects of the daemon entry point as an explicit event trace.
-/

namespace Premiscale

/-- Outcomes of Python code that does not return normally: an AttributeError
raised by an attribute access, a cattrs structuring error, or SystemExit via
sys.exit. -/
inductive PyErr
  | attributeError (attr : String)
  | validationError (msg : String)
  | systemExit (code : Int)
deriving DecidableEq

/-- The process environment (os.environ), as an association list. -/
def EnvT : Type := List (String × String)

/-- Whether the result of a Python call is a normal return. -/
def exOk {α : Type} : Except PyErr α → Bool
  | Except.ok _ => true
  | Except.error _ => false

/-- Characters matched by the regex class \w under re.ASCII, as used by the
variable pattern of os.path.expandvars. -/
def isVarChar (c : Char) : Bool := c.isAlphanum || c = '_'

/-- Longest leading run of variable-name characters, and the rest. -/
def takeWord : List Char → List Char × List Char
  | [] => ([], [])
  | c :: cs =>
    if isVarChar c then
      let rest := takeWord cs
      (c :: rest.1, rest.2)
    else
      ([], c :: cs)

/-- Characters up to the first closing brace, and the rest after it; none when
no closing brace occurs. -/
def takeBraced : List Char → Option (List Char × List Char)
  | [] => none
  | c :: cs =>
    if c = '\x7d' then some ([], cs)
    else
      match takeBraced cs with
      | some (inner, rest) => some (c :: inner, rest)
      | none => none

/-- os.environ lookup. -/
def lookupEnv (env : EnvT) (k : String) : Option String :=
  List.lookup k env

/-- Model of os.path.expandvars (posixpath), the expansion the configuration
classes apply: scan for $name (name a nonempty \w+ run) or a brace-delimited
$-reference; a reference to a set variable is replaced by its value and the
substituted value is not rescanned; a reference to an unset variable, and any
dollar sign that matches neither form, is left as the literal text. The Nat
argument is structural-recursion fuel; the initial call passes the length of
the input, which the scan never exceeds, so the fuel-exhausted branch is never
taken. -/
def expandvarsFuel (env : EnvT) : Nat → List Char → List Char
  | 0, cs => cs
  | _ + 1, [] => []
  | k + 1, c :: cs =>
    if c = '$' then
      match cs with
      | [] => ['$']
      | d :: cs2 =>
        if d = '\x7b' then
          match takeBraced cs2 with
          | some (inner, rest) =>
            match lookupEnv env (String.mk inner) with
            | some v => v.data ++ expandvarsFuel env k rest
            | none => '$' :: '\x7b' :: (inner ++ ('\x7d' :: expandvarsFuel env k rest))
          | none => '$' :: expandvarsFuel env k cs
        else
          match takeWord (d :: cs2) with
          | ([], _) => '$' :: expandvarsFuel env k cs
          | (w, rest) =>
            match lookupEnv env (String.mk w) with
            | some v => v.data ++ expandvarsFuel env k rest
            | none => '$' :: (w ++ expandvarsFuel env k rest)
    else
      c :: expandvarsFuel env k cs

/-- os.path.expandvars over String. -/
def expandvars (env : EnvT) (s : String) : String :=
  String.mk (expandvarsFuel env s.data.length s.data)

/-! ## Configuration schema (src/premiscale/config/v1alpha1.py) -/

/-- Database credentials. -/
structure DatabaseCredentials where
  username : String
  password : String
deriving DecidableEq

/-- Connection configuration options. -/
structure Connection where
  url : String
  database : String
  credentials : DatabaseCredentials
deriving DecidableEq

/-- Connection.expand: expand environment variables in url, database and the
credential fields. -/
def Connection.expand (env : EnvT) (c : Connection) : Connection :=
  { url := expandvars env c.url,
    database := expandvars env c.database,
    credentials :=
      { username := expandvars env c.credentials.username,
        password := expandvars env c.credentials.password } }

/-- Connection construction: the attrs-generated init stores the fields and
the post-init hook runs expand. -/
def mkConnection (env : EnvT) (url database : String)
    (credentials : DatabaseCredentials) : Connection :=
  Connection.expand env { url := url, database := database, credentials := credentials }

/-- State database configuration options. -/
structure State where
  type : String
  collectionInterval : Int
  connection : Option Connection
deriving DecidableEq

/-- Metrics database configuration options. -/
structure Metrics where
  type : String
  collectionInterval : Int
  maxThreads : Int
  hostConnectionTimeout : Int
  trailing : Int
  connection : Option Connection
deriving DecidableEq

/-- Databases configuration options. -/
structure Databases where
  state : State
  metrics : Metrics
deriving DecidableEq

/-- Certificate configuration options. -/
structure Certificates where
  path : String
deriving DecidableEq

/-- Certificates.expand: expand environment variables in the path. -/
def Certificates.expand (env : EnvT) (c : Certificates) : Certificates :=
  { path := expandvars env c.path }

/-- Certificates construction: init stores path, post-init runs expand. -/
def mkCertificates (env : EnvT) (path : String) : Certificates :=
  Certificates.expand env { path := path }

/-- Platform configuration options. Its attrs fields are domain, token,
certificates and actionsQueueMaxSize; the class is slotted, so these are the
only attributes an instance carries. -/
structure Platform where
  domain : String
  token : String
  certificates : Certificates
  actionsQueueMaxSize : Int
deriving DecidableEq

/-- Python attribute read of a string-valued attribute on a slotted Platform
instance: only domain and token exist; any other name raises AttributeError. -/
def Platform.getattrStr (p : Platform) (attr : String) : Except PyErr String :=
  if attr = "domain" then Except.ok p.domain
  else if attr = "token" then Except.ok p.token
  else Except.error (PyErr.attributeError attr)

/-- Python attribute write of a string-valued attribute on a slotted Platform
instance: assigning a name outside the slots raises AttributeError. -/
def Platform.setattrStr (p : Platform) (attr : String) (v : String) :
    Except PyErr Platform :=
  if attr = "domain" then Except.ok { p with domain := v }
  else if attr = "token" then Except.ok { p with token := v }
  else Except.error (PyErr.attributeError attr)

/-- Platform.expand, line for line: it assigns
self.platform = expandvars(self.platform), self.token = expandvars(self.token),
self.cacert = expandvars(self.cacert). The attributes platform and cacert do
not exist on Platform, so the very first read raises AttributeError. -/
def Platform.expand (env : EnvT) (p : Platform) : Except PyErr Platform := do
  let v1 ← p.getattrStr "platform"
  let p1 ← p.setattrStr "platform" (expandvars env v1)
  let v2 ← p1.getattrStr "token"
  let p2 ← p1.setattrStr "token" (expandvars env v2)
  let v3 ← p2.getattrStr "cacert"
  let p3 ← p2.setattrStr "cacert" (expandvars env v3)
  Except.ok p3

/-- Platform construction: init stores the fields, post-init runs expand. -/
def mkPlatform (env : EnvT) (domain token : String) (certificates : Certificates)
    (actionsQueueMaxSize : Int) : Except PyErr Platform :=
  Platform.expand env
    { domain := domain, token := token, certificates := certificates,
      actionsQueueMaxSize := actionsQueueMaxSize }

/-- Reconciliation configuration options. -/
structure Reconciliation where
  interval : Int
deriving DecidableEq

/-- Resource configuration options. -/
structure Resources where
  cpu : Int
  memory : Int
deriving DecidableEq

/-- Host configuration options. -/
structure Host where
  name : String
  address : String
  protocol : String
  port : Int
  hypervisor : String
  resources : Resources
deriving DecidableEq

/-- Cloud-init configuration options. -/
structure CloudInit where
  user_data : String
  meta_data : String
  network_data : String
  vendor_data : String
deriving DecidableEq

/-- Host replacement strategy configuration options. -/
structure HostReplacementStrategy where
  strategy : String
  maxUnavailable : Int
  maxSurge : Int
deriving DecidableEq

/-- Network configuration options. -/
structure Network where
  dhcp : Bool
  gateway : String
  netmask : String
  subnet : String
  addressRange : Option String
deriving DecidableEq

/-- Network.__attrs_post_init__: if self.dhcp and self.addressRange is None,
log an error and sys.exit(1). Note the check is `is None`: a present but empty
addressRange passes. -/
def Network.attrsPostInit (n : Network) : Except PyErr Network :=
  if n.dhcp && n.addressRange.isNone then Except.error (PyErr.systemExit 1)
  else Except.ok n

/-- Network construction: init stores the fields, then the post-init check
runs. -/
def mkNetwork (dhcp : Bool) (gateway netmask subnet : String)
    (addressRange : Option String) : Except PyErr Network :=
  Network.attrsPostInit
    { dhcp := dhcp, gateway := gateway, netmask := netmask, subnet := subnet,
      addressRange := addressRange }

/-- Scale strategy configuration options. -/
structure ScaleStrategy where
  min : Int
  max : Int
  desired : Int
  increment : Int
  cooldown : Int
  method : String
  targetUtilization : List (String × Int)
deriving DecidableEq

/-- Autoscale group configuration options. -/
structure AutoscalingGroup where
  image : String
  domainName : String
  imageMigrationType : String
  cloudInit : CloudInit
  hosts : List Host
  replacement : HostReplacementStrategy
  networking : Network
  scaling : ScaleStrategy
deriving DecidableEq

/-- Autoscaling groups: the class takes an arbitrary set of keyword arguments
(group name to AutoscalingGroup) in a custom init, since the group names are
not fixed by the schema. -/
structure AutoscalingGroups where
  groups : List (String × AutoscalingGroup)
deriving DecidableEq

/-- Autoscale configuration options. -/
structure Autoscale where
  hosts : List Host
  groups : AutoscalingGroups
deriving DecidableEq

/-- Healthcheck configuration options. -/
structure Healthcheck where
  host : String
  port : Int
  path : String
deriving DecidableEq

/-- Controller configuration options. -/
structure Controller where
  databases : Databases
  platform : Platform
  reconciliation : Reconciliation
  autoscale : Autoscale
  healthcheck : Healthcheck
deriving DecidableEq

/-- Parse config files of version v1alpha1: the root document object. -/
structure Config where
  version : String
  controller : Controller
deriving DecidableEq

/-! ## Config.from_dict: cattrs structuring of a parsed document

Config.from_dict hands the parsed mapping to cattrs.structure, which builds
each attrs class from the mapping by extracting the declared fields by name,
structuring them recursively, and calling the class constructor (so the
post-init hooks above run). A generic already-parsed document is modelled by
JValue. -/

/-- A generic parsed configuration document (YAML/JSON already decoded). -/
inductive JValue
  | str (s : String)
  | int (n : Int)
  | bool (b : Bool)
  | null
  | list (xs : List JValue)
  | map (entries : List (String × JValue))

/-- Key lookup in a parsed mapping. -/
def JValue.lookup (v : JValue) (k : String) : Option JValue :=
  match v with
  | JValue.map entries => List.lookup k entries
  | _ => none

/-- Extract a required field of an attrs class from the document; a missing
field is a cattrs structuring error. -/
def getField (v : JValue) (k : String) : Except PyErr JValue :=
  match v.lookup k with
  | some x => Except.ok x
  | none => Except.error (PyErr.validationError ("required field missing: " ++ k))

/-- Structure a str-typed field. -/
def structStr (v : JValue) : Except PyErr String :=
  match v with
  | JValue.str s => Except.ok s
  | _ => Except.error (PyErr.validationError "expected a string")

/-- Structure an int-typed field. -/
def structInt (v : JValue) : Except PyErr Int :=
  match v with
  | JValue.int n => Except.ok n
  | _ => Except.error (PyErr.validationError "expected an int")

/-- Structure a bool-typed field. -/
def structBool (v : JValue) : Except PyErr Bool :=
  match v with
  | JValue.bool b => Except.ok b
  | _ => Except.error (PyErr.validationError "expected a bool")

/-- Structure a List[T]-typed field. -/
def structList {α : Type} (f : JValue → Except PyErr α) (v : JValue) :
    Except PyErr (List α) :=
  match v with
  | JValue.list xs => xs.mapM f
  | _ => Except.error (PyErr.validationError "expected a list")

/-- Structure a Dict[str, int]-typed field. -/
def structStrIntMap (v : JValue) : Except PyErr (List (String × Int)) :=
  match v with
  | JValue.map entries =>
    entries.mapM (fun kv => do
      let n ← structInt kv.2
      Except.ok (kv.1, n))
  | _ => Except.error (PyErr.validationError "expected a mapping")

/-- Structure DatabaseCredentials. -/
def structDatabaseCredentials (v : JValue) : Except PyErr DatabaseCredentials := do
  let username ← structStr (← getField v "username")
  let password ← structStr (← getField v "password")
  Except.ok { username := username, password := password }

/-- Structure Connection; constructing it runs the expand post-init hook. -/
def structConnection (env : EnvT) (v : JValue) : Except PyErr Connection := do
  let url ← structStr (← getField v "url")
  let database ← structStr (← getField v "database")
  let credentials ← structDatabaseCredentials (← getField v "credentials")
  Except.ok (mkConnection env url database credentials)

/-- Structure an optional Connection field: an absent key takes the attrs
default None; an explicit null is None. -/
def structOptConnection (env : EnvT) (v : JValue) : Except PyErr (Option Connection) :=
  match v.lookup "connection" with
  | none => Except.ok none
  | some JValue.null => Except.ok none
  | some c => do
    let cc ← structConnection env c
    Except.ok (some cc)

/-- Structure State. -/
def structState (env : EnvT) (v : JValue) : Except PyErr State := do
  let t ← structStr (← getField v "type")
  let ci ← structInt (← getField v "collectionInterval")
  let conn ← structOptConnection env v
  Except.ok { type := t, collectionInterval := ci, connection := conn }

/-- Structure Metrics. -/
def structMetrics (env : EnvT) (v : JValue) : Except PyErr Metrics := do
  let t ← structStr (← getField v "type")
  let ci ← structInt (← getField v "collectionInterval")
  let mt ← structInt (← getField v "maxThreads")
  let hct ← structInt (← getField v "hostConnectionTimeout")
  let tr ← structInt (← getField v "trailing")
  let conn ← structOptConnection env v
  Except.ok { type := t, collectionInterval := ci, maxThreads := mt,
              hostConnectionTimeout := hct, trailing := tr, connection := conn }

/-- Structure Databases. -/
def structDatabases (env : EnvT) (v : JValue) : Except PyErr Databases := do
  let state ← structState env (← getField v "state")
  let metrics ← structMetrics env (← getField v "metrics")
  Except.ok { state := state, metrics := metrics }

/-- Structure Certificates; constructing it runs the expand post-init hook. -/
def structCertificates (env : EnvT) (v : JValue) : Except PyErr Certificates := do
  let path ← structStr (← getField v "path")
  Except.ok (mkCertificates env path)

/-- Structure Platform; constructing it runs the expand post-init hook, which
raises AttributeError (see Platform.expand). -/
def structPlatform (env : EnvT) (v : JValue) : Except PyErr Platform := do
  let domain ← structStr (← getField v "domain")
  let token ← structStr (← getField v "token")
  let certificates ← structCertificates env (← getField v "certificates")
  let q ← structInt (← getField v "actionsQueueMaxSize")
  mkPlatform env domain token certificates q

/-- Structure Reconciliation. -/
def structReconciliation (v : JValue) : Except PyErr Reconciliation := do
  let interval ← structInt (← getField v "interval")
  Except.ok { interval := interval }

/-- Structure Resources. -/
def structResources (v : JValue) : Except PyErr Resources := do
  let cpu ← structInt (← getField v "cpu")
  let memory ← structInt (← getField v "memory")
  Except.ok { cpu := cpu, memory := memory }

/-- Structure Host. -/
def structHost (v : JValue) : Except PyErr Host := do
  let name ← structStr (← getField v "name")
  let address ← structStr (← getField v "address")
  let protocol ← structStr (← getField v "protocol")
  let port ← structInt (← getField v "port")
  let hypervisor ← structStr (← getField v "hypervisor")
  let resources ← structResources (← getField v "resources")
  Except.ok { name := name, address := address, protocol := protocol,
              port := port, hypervisor := hypervisor, resources := resources }

/-- Structure CloudInit. -/
def structCloudInit (v : JValue) : Except PyErr CloudInit := do
  let ud ← structStr (← getField v "user_data")
  let md ← structStr (← getField v "meta_data")
  let nd ← structStr (← getField v "network_data")
  let vd ← structStr (← getField v "vendor_data")
  Except.ok { user_data := ud, meta_data := md, network_data := nd, vendor_data := vd }

/-- Structure HostReplacementStrategy. -/
def structHostReplacementStrategy (v : JValue) : Except PyErr HostReplacementStrategy := do
  let strategy ← structStr (← getField v "strategy")
  let mu ← structInt (← getField v "maxUnavailable")
  let ms ← structInt (← getField v "maxSurge")
  Except.ok { strategy := strategy, maxUnavailable := mu, maxSurge := ms }

/-- Structure Network; constructing it runs the post-init DHCP check, which
may terminate the process. -/
def structNetwork (v : JValue) : Except PyErr Network := do
  let dhcp ← structBool (← getField v "dhcp")
  let gateway ← structStr (← getField v "gateway")
  let netmask ← structStr (← getField v "netmask")
  let subnet ← structStr (← getField v "subnet")
  let ar ←
    match v.lookup "addressRange" with
    | none => Except.ok none
    | some JValue.null => Except.ok none
    | some x => do
      let s ← structStr x
      Except.ok (some s)
  mkNetwork dhcp gateway netmask subnet ar

/-- Structure ScaleStrategy. -/
def structScaleStrategy (v : JValue) : Except PyErr ScaleStrategy := do
  let mn ← structInt (← getField v "min")
  let mx ← structInt (← getField v "max")
  let desired ← structInt (← getField v "desired")
  let increment ← structInt (← getField v "increment")
  let cooldown ← structInt (← getField v "cooldown")
  let method ← structStr (← getField v "method")
  let tu ← structStrIntMap (← getField v "targetUtilization")
  Except.ok { min := mn, max := mx, desired := desired, increment := increment,
              cooldown := cooldown, method := method, targetUtilization := tu }

/-- Structure AutoscalingGroup. -/
def structAutoscalingGroup (v : JValue) : Except PyErr AutoscalingGroup := do
  let image ← structStr (← getField v "image")
  let domainName ← structStr (← getField v "domainName")
  let imt ← structStr (← getField v "imageMigrationType")
  let ci ← structCloudInit (← getField v "cloudInit")
  let hosts ← structList structHost (← getField v "hosts")
  let replacement ← structHostReplacementStrategy (← getField v "replacement")
  let networking ← structNetwork (← getField v "networking")
  let scaling ← structScaleStrategy (← getField v "scaling")
  Except.ok { image := image, domainName := domainName, imageMigrationType := imt,
              cloudInit := ci, hosts := hosts, replacement := replacement,
              networking := networking, scaling := scaling }

/-- Structure AutoscalingGroups: cattrs structures an attrs class through its
declared attrs fields, and AutoscalingGroups declares none (its groups are set
dynamically by a custom init from arbitrary keyword arguments), so default
cattrs structuring calls that init with no arguments, yielding an object with
no groups whatever the document holds. -/
def structAutoscalingGroups (_v : JValue) : Except PyErr AutoscalingGroups :=
  Except.ok { groups := [] }

/-- Structure Autoscale. -/
def structAutoscale (v : JValue) : Except PyErr Autoscale := do
  let hosts ← structList structHost (← getField v "hosts")
  let groups ← structAutoscalingGroups (← getField v "groups")
  Except.ok { hosts := hosts, groups := groups }

/-- Structure Healthcheck. -/
def structHealthcheck (v : JValue) : Except PyErr Healthcheck := do
  let host ← structStr (← getField v "host")
  let port ← structInt (← getField v "port")
  let path ← structStr (← getField v "path")
  Except.ok { host := host, port := port, path := path }

/-- Structure Controller. -/
def structController (env : EnvT) (v : JValue) : Except PyErr Controller := do
  let databases ← structDatabases env (← getField v "databases")
  let platform ← structPlatform env (← getField v "platform")
  let reconciliation ← structReconciliation (← getField v "reconciliation")
  let autoscale ← structAutoscale (← getField v "autoscale")
  let healthcheck ← structHealthcheck (← getField v "healthcheck")
  Except.ok { databases := databases, platform := platform,
              reconciliation := reconciliation, autoscale := autoscale,
              healthcheck := healthcheck }

/-- Config.from_dict: create a Config object from a parsed mapping via
cattrs.structure, with the process environment explicit. -/
def Config.from_dict (env : EnvT) (config : JValue) : Except PyErr Config := do
  let version ← structStr (← getField config "version")
  let controller ← structController env (← getField config "controller")
  Except.ok { version := version, controller := controller }

/-- Modelled from the spec: the configuration loader in
premiscale/config/_config.py, the module daemon.py imports Config from, is not
under src/. Per the spec, the version string determines which concrete schema
interprets the rest of the document, only "v1alpha1" is defined, and an
unrecognized version is a fatal configuration error. -/
def loadConfig (env : EnvT) (doc : JValue) : Except PyErr Config :=
  match doc.lookup "version" with
  | some (JValue.str v) =>
    if v = "v1alpha1" then Config.from_dict env doc
    else Except.error (PyErr.systemExit 1)
  | some _ => Except.error (PyErr.systemExit 1)
  | none => Except.error (PyErr.systemExit 1)

/-! ## Hypervisor connection abstraction (src/premiscale/hypervisor/_base.py) -/

/-- Levels of the logging calls the code makes. -/
inductive LogLevel
  | info
  | error
deriving DecidableEq

/-- One emitted log record. -/
structure LogEntry where
  level : LogLevel
  msg : String
deriving DecidableEq

/-- Python str() of an Optional[str], as an f-string renders it: None prints
as the text None. -/
def pyStr : Option String → String
  | some s => s
  | none => "None"

/-- Python str.lower() restricted to ASCII, which covers the protocol strings
involved; used by the protocol comparison in Libvirt.__init__. -/
def pyLower (s : String) : String :=
  String.mk (s.data.map Char.toLower)

/-- Connect to hosts and provide an interface for interacting with VMs on
them. The address field holds str(address) of the IPv4Address passed in;
_connection is the held libvirt handle (an opaque id), None until a
successful open. -/
structure Libvirt where
  name : String
  address : String
  port : Int
  protocol : String
  hypervisor : String
  user : Option String
  readonly : Bool
  «_connection» : Option Int
  connection_string : String

/-- Libvirt.__init__: store the arguments, leave _connection unset and form
the connection string: protocol.lower() == ssh gives the ssh form
hypervisor+ssh://user@address:port/system, anything else the tls form
hypervisor+tls://address:port/system. -/
def mkLibvirt (name address : String) (port : Int) (protocol hypervisor : String)
    (user : Option String) (readonly : Bool) : Libvirt :=
  { name := name, address := address, port := port, protocol := protocol,
    hypervisor := hypervisor, user := user, readonly := readonly,
    «_connection» := none,
    connection_string :=
      if pyLower protocol = "ssh" then
        hypervisor ++ "+ssh://" ++ pyStr user ++ "@" ++ address ++ ":"
          ++ toString port ++ "/system"
      else
        hypervisor ++ "+tls://" ++ address ++ ":" ++ toString port ++ "/system" }

/-- Libvirt.open (named openConn here because open is a Lean keyword). The
underlying argument is the outcome of the libvirt library call the method
makes (lv.openReadOnly when readonly, lv.open otherwise): a handle, or the
libvirtError it raises. On success the handle is stored and self is returned
(with an info log in the non-readonly branch); on a libvirtError the except
clause logs the failure at error level and returns None. The method returns
in every case: no exception propagates to the caller. -/
def Libvirt.openConn (l : Libvirt) (underlying : Except String Int) :
    Libvirt × Option Libvirt × List LogEntry :=
  match underlying with
  | Except.ok h =>
    let l2 := { l with «_connection» := some h }
    (l2, some l2,
      if l.readonly then []
      else [⟨LogLevel.info, "Connected to host at " ++ l.connection_string⟩])
  | Except.error e =>
    (l, none,
      [⟨LogLevel.error,
        "Failed to connect to host at " ++ l.connection_string ++ ": " ++ e⟩])

/-- Libvirt.close: when a connection is held, release it through
virConnectClose and log at info level; otherwise log that there was nothing
to close. The Int counts the virConnectClose calls performed. -/
def Libvirt.close (l : Libvirt) : Libvirt × Int × List LogEntry :=
  match l.«_connection» with
  | some _ =>
    (l, 1, [⟨LogLevel.info, "Closed connection to host at " ++ l.connection_string⟩])
  | none =>
    (l, 0,
      [⟨LogLevel.error,
        "No host connection to close, probably due to an error on connection open."⟩])

/-- The with-statement use of a Libvirt object: __enter__ runs open, the body
runs (bodyRaises records whether it raised), and __exit__ runs close on self
in every case, body error or not. Result: the number of virConnectClose calls
made over the whole scope, and the emitted log records. -/
def Libvirt.scopedUse (l : Libvirt) (underlying : Except String Int)
    (_bodyRaises : Bool) : Int × List LogEntry :=
  let opened := l.openConn underlying
  let closed := opened.1.close
  (closed.2.1, opened.2.2 ++ closed.2.2)

/-! ## Daemon orchestration (src/premiscale/controller/daemon.py)

start is modelled as the ordered trace of the operations it performs, with
each blocking wait an explicit event. daemon.py annotates controller_config
with the Config of premiscale.config._config (a module not under src/, which
per the spec wraps the v1alpha1 schema); the v1alpha1 Config stands in for it
here. register() is an HTTPS call to the platform; its outcome is the
registration parameter (None models a falsy result). -/

/-- The four worker callables start submits to the process pool. -/
inductive Worker
  | platform
  | asg
  | metrics
  | reconcile
deriving DecidableEq

/-- One operation of the daemon entry point, in program order. -/
inductive Ev
  | setproctitle (title : String)
  | submitHealthcheck (host : String) (port : Int)
  | waitHealthcheck
  | createQueue (q : String)
  | registerCall (url : String)
  | submitWorker (w : Worker)
  | waitWorkers
deriving DecidableEq

/-- The arguments of start. -/
structure StartArgs where
  working_dir : String
  pid_file : String
  controller_config : Config
  controller_version : String
  token : String
  host : String
  cacert : String

/-- start, as the trace of its operations and its return value. The
healthcheck thread pool is opened in a with-statement whose body only submits
healthcheck.run with host=host (the platform host argument) and port=8085;
leaving that with-statement calls ThreadPoolExecutor.shutdown(wait=True),
which blocks until the submitted healthcheck.run returns - the waitHealthcheck
event. Only then are the two queues created and the workers submitted: the
Platform worker only when the registration call returned a truthy result, and
the ASG, Metrics and Reconcile workers unconditionally. The final loop calls
result() on each submitted future (waitWorkers) and the function returns 0. -/
def start (a : StartArgs) (registration : Option Unit) : List Ev × Int :=
  ([Ev.setproctitle "premiscale",
    Ev.submitHealthcheck a.host 8085,
    Ev.waitHealthcheck,
    Ev.createQueue "autoscaling_action_queue",
    Ev.createQueue "platform_message_queue",
    Ev.registerCall ("https://" ++ a.host)]
   ++ (match registration with
       | some _ => [Ev.submitWorker Worker.platform]
       | none => [])
   ++ [Ev.submitWorker Worker.asg,
       Ev.submitWorker Worker.metrics,
       Ev.submitWorker Worker.reconcile,
       Ev.waitWorkers], 0)

/-- The workers a trace submits, in order. -/
def submittedWorkers (evs : List Ev) : List Worker :=
  evs.filterMap (fun ev =>
    match ev with
    | Ev.submitWorker w => some w
    | _ => none)

/-- The healthcheck submissions of a trace: the (host, port) each one binds. -/
def healthcheckLaunches (evs : List Ev) : List (String × Int) :=
  evs.filterMap (fun ev =>
    match ev with
    | Ev.submitHealthcheck h p => some (h, p)
    | _ => none)

/-- The same start arguments with the healthcheck section of the configuration
replaced. -/
def StartArgs.withHealthcheck (a : StartArgs) (hc : Healthcheck) : StartArgs :=
  { a with controller_config :=
      { a.controller_config with controller :=
          { a.controller_config.controller with healthcheck := hc } } }

/-! ## Helper lemmas -/

/-- A bind whose continuation never returns normally never returns normally. -/
theorem exOk_bind_false {α β : Type} (m : Except PyErr α) (f : α → Except PyErr β)
    (h : ∀ a, exOk (f a) = false) : exOk (m >>= f) = false := by
  cases m with
  | ok a => exact h a
  | error e => rfl

/-- A bind whose first step never returns normally never returns normally. -/
theorem exOk_bind_left_false {α β : Type} (m : Except PyErr α) (f : α → Except PyErr β)
    (h : exOk m = false) : exOk (m >>= f) = false := by
  cases m with
  | ok a => exact Bool.noConfusion h
  | error e => rfl

/-- Structuring the platform section never returns normally: Platform
construction always ends with the AttributeError raised by Platform.expand. -/
theorem structPlatform_not_ok (env : EnvT) (v : JValue) :
    exOk (structPlatform env v) = false := by
  unfold structPlatform
  apply exOk_bind_false; intro x1
  apply exOk_bind_false; intro domain
  apply exOk_bind_false; intro x2
  apply exOk_bind_false; intro token
  apply exOk_bind_false; intro x3
  apply exOk_bind_false; intro certificates
  apply exOk_bind_false; intro x4
  apply exOk_bind_false; intro q
  rfl

/-- Structuring the controller section never returns normally, because its
platform field never does. -/
theorem structController_not_ok (env : EnvT) (v : JValue) :
    exOk (structController env v) = false := by
  unfold structController
  apply exOk_bind_false; intro x1
  apply exOk_bind_false; intro databases
  apply exOk_bind_false; intro x2
  exact exOk_bind_left_false _ _ (structPlatform_not_ok env x2)

/-- Config.from_dict never produces a Config object, for any parsed mapping:
every structuring either fails on a missing or ill-shaped field or reaches
Platform construction, whose post-init expand raises AttributeError. -/
theorem from_dict_not_ok (env : EnvT) (doc : JValue) :
    exOk (Config.from_dict env doc) = false := by
  unfold Config.from_dict
  apply exOk_bind_false; intro x1
  apply exOk_bind_false; intro version
  apply exOk_bind_false; intro x2
  exact exOk_bind_left_false _ _ (structController_not_ok env x2)

/-! ## Claims -/

/-- Claim C1: when the platform registration call returns an absent result,
start still submits the ASG action executor, the metrics collector and the
reconciliation engine workers, does not submit the platform connector worker,
and returns normally with code 0 (the absent registration only drops the
platform entry from the process list); with a registration handle, the same
three workers plus the platform connector are submitted. -/
theorem registration_failure_nonfatal (a : StartArgs) :
    submittedWorkers (start a none).1 = [Worker.asg, Worker.metrics, Worker.reconcile] ∧
    (start a none).2 = 0 ∧
    submittedWorkers (start a (some ())).1
      = [Worker.platform, Worker.asg, Worker.metrics, Worker.reconcile] ∧
    (start a (some ())).2 = 0 :=
  ⟨rfl, rfl, rfl, rfl⟩

/-- Claim C2 counterexample: a Network with dhcp true and an addressRange
that is present but empty is accepted — construction returns the object and
does not terminate the process, contradicting the claim that an empty
addressRange fails fatally. -/
theorem dhcp_empty_addressRange_accepted :
    mkNetwork true "192.168.1.1" "255.255.255.0" "192.168.1.0" (some "")
      = Except.ok { dhcp := true, gateway := "192.168.1.1",
                    netmask := "255.255.255.0", subnet := "192.168.1.0",
                    addressRange := some "" } ∧
    exOk (mkNetwork true "192.168.1.1" "255.255.255.0" "192.168.1.0" (some "")) = true :=
  ⟨rfl, rfl⟩

/-- Claim C2 (amended): Network construction checks presence only, not
emptiness: dhcp true with addressRange absent terminates the process with
exit code 1; dhcp true with any present addressRange (the empty string
included) succeeds; dhcp false with no addressRange succeeds. -/
theorem dhcp_invariant_none_only (gateway netmask subnet r : String) :
    mkNetwork true gateway netmask subnet none = Except.error (PyErr.systemExit 1) ∧
    mkNetwork true gateway netmask subnet (some r)
      = Except.ok { dhcp := true, gateway := gateway, netmask := netmask,
                    subnet := subnet, addressRange := some r } ∧
    mkNetwork false gateway netmask subnet none
      = Except.ok { dhcp := false, gateway := gateway, netmask := netmask,
                    subnet := subnet, addressRange := none } :=
  ⟨rfl, rfl, rfl⟩

/-- Claim C3 counterexample: protocol SSH in capitals is not the string ssh,
yet the connection string produced for it is the ssh form, not the tls form
the claim requires for every protocol value other than ssh. -/
theorem uppercase_ssh_gets_ssh_form :
    (mkLibvirt "h1" "10.0.0.5" 22 "SSH" "qemu" (some "admin") false).connection_string
      = "qemu+ssh://admin@10.0.0.5:22/system" ∧
    ((mkLibvirt "h1" "10.0.0.5" 22 "SSH" "qemu" (some "admin") false).connection_string
      == "qemu+tls://10.0.0.5:22/system") = false :=
  ⟨rfl, rfl⟩

/-- Claim C3 (amended): the protocol is lowercased before comparison: every
protocol whose lowercase form is ssh yields
hypervisor+ssh://user@address:port/system, and every protocol whose lowercase
form is not ssh (tls and unrecognized strings included) yields
hypervisor+tls://address:port/system. -/
theorem connection_string_lowercased_protocol (name address : String) (port : Int)
    (protocol hypervisor : String) (user : Option String) (readonly : Bool) :
    (pyLower protocol = "ssh" →
      (mkLibvirt name address port protocol hypervisor user readonly).connection_string
        = hypervisor ++ "+ssh://" ++ pyStr user ++ "@" ++ address ++ ":"
          ++ toString port ++ "/system") ∧
    (pyLower protocol ≠ "ssh" →
      (mkLibvirt name address port protocol hypervisor user readonly).connection_string
        = hypervisor ++ "+tls://" ++ address ++ ":" ++ toString port ++ "/system") := by
  constructor
  · intro h
    unfold mkLibvirt
    rw [if_pos h]
  · intro h
    unfold mkLibvirt
    rw [if_neg h]

/-- Witness for C3 (amended), at protocol SSH for the ssh arm and protocol
tls for the tls arm. -/
theorem connection_string_lowercased_protocol_witness :
    (pyLower "SSH" = "ssh" ∧
      (mkLibvirt "h1" "10.0.0.5" 22 "SSH" "qemu" (some "admin") false).connection_string
        = "qemu" ++ "+ssh://" ++ pyStr (some "admin") ++ "@" ++ "10.0.0.5" ++ ":"
          ++ toString (22 : Int) ++ "/system") ∧
    (pyLower "tls" ≠ "ssh" ∧
      (mkLibvirt "h1" "10.0.0.5" 22 "tls" "qemu" (some "admin") false).connection_string
        = "qemu" ++ "+tls://" ++ "10.0.0.5" ++ ":" ++ toString (22 : Int) ++ "/system") :=
  ⟨⟨by decide,
    (connection_string_lowercased_protocol "h1" "10.0.0.5" 22 "SSH" "qemu"
      (some "admin") false).1 (by decide)⟩,
   ⟨by decide,
    (connection_string_lowercased_protocol "h1" "10.0.0.5" 22 "tls" "qemu"
      (some "admin") false).2 (by decide)⟩⟩

/-- Claim C4: open returns the connected handle (self, holding the new
connection) when the underlying libvirt call succeeds, and None when it
raises; in the failure case it logs the error and still returns — the
libvirtError is consumed by the except clause, never propagated. -/
theorem open_returns_handle_or_none (l : Libvirt) (h : Int) (e : String) :
    (l.openConn (Except.ok h)).2.1 = some { l with «_connection» := some h } ∧
    (l.openConn (Except.error e)).2.1 = none ∧
    (l.openConn (Except.error e)).2.2
      = [⟨LogLevel.error,
          "Failed to connect to host at " ++ l.connection_string ++ ": " ++ e⟩] ∧
    (l.openConn (Except.error e)).1 = l :=
  ⟨rfl, rfl, rfl, rfl⟩

/-- Claim C5: over a scoped use of a freshly constructed connection, a failed
open followed by the guard close performs no release and records the
nothing-to-close diagnostic (close returns, it does not raise); a successful
open leads to exactly one release of the handle, whether or not the body
raised between open and close. -/
theorem scoped_close_lifecycle (name address : String) (port : Int)
    (protocol hypervisor : String) (user : Option String) (readonly : Bool)
    (e : String) (h : Int) (bodyRaises : Bool) :
    ((mkLibvirt name address port protocol hypervisor user readonly).scopedUse
        (Except.error e) bodyRaises).1 = 0 ∧
    ((mkLibvirt name address port protocol hypervisor user readonly).scopedUse
        (Except.error e) bodyRaises).2
      = [⟨LogLevel.error,
          "Failed to connect to host at "
            ++ (mkLibvirt name address port protocol hypervisor user readonly).connection_string
            ++ ": " ++ e⟩,
         ⟨LogLevel.error,
          "No host connection to close, probably due to an error on connection open."⟩] ∧
    ((mkLibvirt name address port protocol hypervisor user readonly).scopedUse
        (Except.ok h) bodyRaises).1 = 1 :=
  ⟨rfl, rfl, rfl⟩

/-- Claim C6: environment expansion runs as part of construction and leaves
references to unset variables verbatim — Connection (url expanded, database
and username referencing unset variables left as written) and Certificates
(path expanded) construct successfully; but Platform construction never
succeeds: its expand assigns through the attributes platform and cacert,
which do not exist on the class, so every construction raises AttributeError
and the domain, token and certificate-path fields are never expanded. -/
theorem expansion_construction_behavior :
    mkConnection [("DB_HOST", "metrics.local")] "postgres://$DB_HOST/db" "$DB_NAME"
        { username := "$DB_USER", password := "pw" }
      = { url := "postgres://metrics.local/db", database := "$DB_NAME",
          credentials := { username := "$DB_USER", password := "pw" } } ∧
    mkCertificates [("CERT_DIR", "/etc/ssl")] "$CERT_DIR/ca.pem"
      = { path := "/etc/ssl/ca.pem" } ∧
    mkPlatform [("PREMISCALE_TOKEN", "tok")] "app.premiscale.com" "$PREMISCALE_TOKEN"
        { path := "/ca.pem" } 100
      = Except.error (PyErr.attributeError "platform") :=
  ⟨rfl, rfl, rfl⟩

/-- Claim C7: the healthcheck server is submitted with host equal to the
platform host argument of start and the hardcoded port 8085; the Healthcheck
section of the configuration (host, port, path) is never consulted — the
trace is unchanged under any replacement of that section. -/
theorem healthcheck_binding_ignores_config (a : StartArgs)
    (registration : Option Unit) (hc : Healthcheck) :
    healthcheckLaunches (start a registration).1 = [(a.host, 8085)] ∧
    start (a.withHealthcheck hc) registration = start a registration := by
  cases registration with
  | none => exact ⟨rfl, rfl⟩
  | some r => exact ⟨rfl, rfl⟩

/-- Claim C8: the first three operations of start are the title change, the
healthcheck submission and the wait for the healthcheck task (the
ThreadPoolExecutor with-statement joins its worker on exit); every queue
creation and every worker submission comes only after that wait. -/
theorem startup_waits_on_healthcheck (a : StartArgs) (registration : Option Unit) :
    (start a registration).1.take 3
      = [Ev.setproctitle "premiscale", Ev.submitHealthcheck a.host 8085,
         Ev.waitHealthcheck] ∧
    submittedWorkers ((start a registration).1.drop 3)
      = submittedWorkers (start a registration).1 ∧
    ((start a registration).1.take 3).filter
        (fun ev => match ev with | Ev.createQueue _ => true | _ => false) = [] := by
  cases registration with
  | none => exact ⟨rfl, rfl, rfl⟩
  | some r => exact ⟨rfl, rfl, rfl⟩

/-- Claim C9: a parsed mapping whose version string is not v1alpha1, the only
defined schema version, is rejected: the loader fails fatally on the
unrecognized version, and Config.from_dict produces no Config object for the
document. -/
theorem unrecognized_version_rejected (env : EnvT) (doc : JValue) (v : String)
    (h1 : doc.lookup "version" = some (JValue.str v)) (h2 : v ≠ "v1alpha1") :
    exOk (loadConfig env doc) = false ∧ exOk (Config.from_dict env doc) = false := by
  refine ⟨?_, from_dict_not_ok env doc⟩
  unfold loadConfig
  rw [h1]
  show exOk (if v = "v1alpha1" then Config.from_dict env doc
             else Except.error (PyErr.systemExit 1)) = false
  rw [if_neg h2]
  rfl

/-- Witness for C9, at a concrete document with version v9999. -/
theorem unrecognized_version_rejected_witness :
    (JValue.map [("version", JValue.str "v9999")]).lookup "version"
      = some (JValue.str "v9999") ∧
    "v9999" ≠ "v1alpha1" ∧
    (exOk (loadConfig [] (JValue.map [("version", JValue.str "v9999")])) = false ∧
     exOk (Config.from_dict [] (JValue.map [("version", JValue.str "v9999")])) = false) :=
  ⟨rfl, by decide,
   unrecognized_version_rejected [] (JValue.map [("version", JValue.str "v9999")])
     "v9999" rfl (by decide)⟩

/-- Claim C10: protocol matching is case-insensitive: any protocol whose
lowercase form is ssh produces the same connection string as protocol ssh
itself. -/
theorem protocol_case_insensitive (name address : String) (port : Int)
    (protocol hypervisor : String) (user : Option String) (readonly : Bool)
    (h : pyLower protocol = "ssh") :
    (mkLibvirt name address port protocol hypervisor user readonly).connection_string
      = (mkLibvirt name address port "ssh" hypervisor user readonly).connection_string := by
  unfold mkLibvirt
  rw [h]
  rfl

/-- Witness for C10, at protocol SSH in capitals. -/
theorem protocol_case_insensitive_witness :
    pyLower "SSH" = "ssh" ∧
    (mkLibvirt "h1" "10.0.0.5" 22 "SSH" "qemu" (some "admin") false).connection_string
      = (mkLibvirt "h1" "10.0.0.5" 22 "ssh" "qemu" (some "admin") false).connection_string :=
  ⟨by decide,
   protocol_case_insensitive "h1" "10.0.0.5" 22 "SSH" "qemu" (some "admin") false
     (by decide)⟩

end Premiscale
